import Mathlib

/-
  Verification of the AI Foundry provisioning/validation scripts.

  Shallow embedding of:
  - the ValidationResult aggregator and the final exit decision of
    validate-ai-foundry-deployment.py,
  - the Key Vault validator of the same script,
  - the idempotent resource-phase pattern, the secret-propagation phase and
    the top-level control flow of create-ai-foundry-project.py,
  - the secret-masking expressions of validate-keyvault-access.py and
    validate-ai-foundry-deployment.py.

  External collaborators (the Azure SDK clients, the CLI, the key vault)
  are modelled as boolean oracles saying which calls succeed; the embedding
  records the calls the scripts make as an event trace.
-/

namespace AiFoundry

/-- One validation check record, as built by ValidationResult.add_check
(validate-ai-foundry-deployment.py, lines 105-129).  The details dict is
modelled as an association list; the only detail values the verified claims
inspect are lists of secret names, so detail values are lists of strings
(resource metadata echoed from the cloud, such as location or sku, is
oracle data and is elided as the empty list). -/
structure Check where
  category : String
  name : String
  status : String
  message : String
  details : List (String × List String)
deriving DecidableEq, Repr

/-- The ValidationResult aggregate (validate-ai-foundry-deployment.py,
lines 96-147): the append-only check list and the three derived buckets. -/
structure ValidationResult where
  checks : List Check
  issues : List Check
  warnings : List Check
  successes : List Check
deriving DecidableEq, Repr

/-- ValidationResult.__init__ : all four lists empty. -/
def emptyResult : ValidationResult :=
  { checks := [], issues := [], warnings := [], successes := [] }

/-- ValidationResult.add_check (lines 105-129): append the check to
checks, then classify it into exactly one bucket by the if/elif chain on
the status string; a status outside PASS/FAIL/WARN is appended to checks
and lands in no bucket. -/
def add_check (r : ValidationResult) (c : Check) : ValidationResult :=
  if c.status = "PASS" then
    { r with checks := r.checks ++ [c], successes := r.successes ++ [c] }
  else if c.status = "FAIL" then
    { r with checks := r.checks ++ [c], issues := r.issues ++ [c] }
  else if c.status = "WARN" then
    { r with checks := r.checks ++ [c], warnings := r.warnings ++ [c] }
  else
    { r with checks := r.checks ++ [c] }

/-- The summary dict returned by ValidationResult.get_summary
(lines 131-143). -/
structure Summary where
  total_checks : Nat
  passed : Nat
  failed : Nat
  warnings : Nat
  success_rate : ℚ
deriving DecidableEq, Repr

/-- ValidationResult.get_summary (lines 131-143): counts of the four lists,
and the success rate len(successes)/len(checks)*100 guarded by the
emptiness test on checks. -/
def get_summary (r : ValidationResult) : Summary :=
  { total_checks := r.checks.length
    passed := r.successes.length
    failed := r.issues.length
    warnings := r.warnings.length
    success_rate :=
      if r.checks = [] then 0
      else (r.successes.length : ℚ) / (r.checks.length : ℚ) * 100 }

/-- ValidationResult.has_critical_issues (lines 145-147):
len(self.issues) > 0. -/
def has_critical_issues (r : ValidationResult) : Bool :=
  decide (0 < r.issues.length)

/-- The ValidationResult obtained from a sequence of add_check calls,
starting from the freshly initialised aggregate. -/
def buildResult (calls : List Check) : ValidationResult :=
  calls.foldl add_check emptyResult

/-- The exit decision at the end of the validation command
(validate-ai-foundry-deployment.py, lines 929-935): exit 1 when
has_critical_issues, else exit 0. -/
def finalExitCode (r : ValidationResult) : Nat :=
  if has_critical_issues r then 1 else 0

/-! Bookkeeping lemmas characterising buildResult field by field. -/

lemma add_check_checks (r : ValidationResult) (c : Check) :
    (add_check r c).checks = r.checks ++ [c] := by
  unfold add_check
  split_ifs <;> rfl

lemma add_check_issues (r : ValidationResult) (c : Check) :
    (add_check r c).issues =
      r.issues ++ (if c.status = "FAIL" then [c] else []) := by
  unfold add_check
  split_ifs <;> simp_all

lemma add_check_successes (r : ValidationResult) (c : Check) :
    (add_check r c).successes =
      r.successes ++ (if c.status = "PASS" then [c] else []) := by
  unfold add_check
  split_ifs <;> simp_all

lemma add_check_warnings (r : ValidationResult) (c : Check) :
    (add_check r c).warnings =
      r.warnings ++ (if c.status = "WARN" then [c] else []) := by
  unfold add_check
  split_ifs <;> simp_all

lemma foldl_add_check_checks (calls : List Check) :
    ∀ r : ValidationResult,
      (calls.foldl add_check r).checks = r.checks ++ calls := by
  induction calls with
  | nil => intro r; simp
  | cons c cs ih =>
      intro r
      simp only [List.foldl_cons, ih, add_check_checks, List.append_assoc,
        List.singleton_append]

lemma foldl_add_check_issues (calls : List Check) :
    ∀ r : ValidationResult,
      (calls.foldl add_check r).issues =
        r.issues ++ calls.filter (fun c => c.status = "FAIL") := by
  induction calls with
  | nil => intro r; simp
  | cons c cs ih =>
      intro r
      simp only [List.foldl_cons, ih, add_check_issues, List.filter_cons]
      by_cases h : c.status = "FAIL" <;> simp [h]

lemma foldl_add_check_successes (calls : List Check) :
    ∀ r : ValidationResult,
      (calls.foldl add_check r).successes =
        r.successes ++ calls.filter (fun c => c.status = "PASS") := by
  induction calls with
  | nil => intro r; simp
  | cons c cs ih =>
      intro r
      simp only [List.foldl_cons, ih, add_check_successes, List.filter_cons]
      by_cases h : c.status = "PASS" <;> simp [h]

lemma foldl_add_check_warnings (calls : List Check) :
    ∀ r : ValidationResult,
      (calls.foldl add_check r).warnings =
        r.warnings ++ calls.filter (fun c => c.status = "WARN") := by
  induction calls with
  | nil => intro r; simp
  | cons c cs ih =>
      intro r
      simp only [List.foldl_cons, ih, add_check_warnings, List.filter_cons]
      by_cases h : c.status = "WARN" <;> simp [h]

lemma buildResult_checks (calls : List Check) :
    (buildResult calls).checks = calls := by
  simp [buildResult, foldl_add_check_checks, emptyResult]

lemma buildResult_issues (calls : List Check) :
    (buildResult calls).issues =
      calls.filter (fun c => c.status = "FAIL") := by
  simp [buildResult, foldl_add_check_issues, emptyResult]

lemma buildResult_successes (calls : List Check) :
    (buildResult calls).successes =
      calls.filter (fun c => c.status = "PASS") := by
  simp [buildResult, foldl_add_check_successes, emptyResult]

lemma buildResult_warnings (calls : List Check) :
    (buildResult calls).warnings =
      calls.filter (fun c => c.status = "WARN") := by
  simp [buildResult, foldl_add_check_warnings, emptyResult]

/-- A length-partition fact: when every status is one of PASS, FAIL, WARN,
the three bucket filters partition the call list. -/
lemma length_filter_partition (calls : List Check)
    (h : ∀ c ∈ calls,
      c.status = "PASS" ∨ c.status = "FAIL" ∨ c.status = "WARN") :
    calls.length =
      (calls.filter (fun c => c.status = "PASS")).length +
      (calls.filter (fun c => c.status = "FAIL")).length +
      (calls.filter (fun c => c.status = "WARN")).length := by
  induction calls with
  | nil => simp
  | cons c cs ih =>
      have hc := h c (List.mem_cons_self c cs)
      have hcs : ∀ x ∈ cs,
          x.status = "PASS" ∨ x.status = "FAIL" ∨ x.status = "WARN" :=
        fun x hx => h x (List.mem_cons_of_mem c hx)
      have ih2 := ih hcs
      rcases hc with hp | hf | hw
      · have h1 : ¬ c.status = "FAIL" := by simp [hp]
        have h2 : ¬ c.status = "WARN" := by simp [hp]
        simp [List.filter_cons, hp, h1, h2, ih2]
        omega
      · have h1 : ¬ c.status = "PASS" := by simp [hf]
        have h2 : ¬ c.status = "WARN" := by simp [hf]
        simp [List.filter_cons, hf, h1, h2, ih2]
        omega
      · have h1 : ¬ c.status = "PASS" := by simp [hw]
        have h2 : ¬ c.status = "FAIL" := by simp [hw]
        simp [List.filter_cons, hw, h1, h2, ih2]
        omega

/-- A check whose status string is outside the PASS/FAIL/WARN enumeration,
as add_check accepts without classifying. -/
def skippedCheck : Check :=
  { category := "Environment", name := "Required Variables",
    status := "SKIPPED", message := "m", details := [] }

/-- C1 counterexample: the claim quantifies over arbitrary string statuses,
but an add_check call with a status outside PASS/FAIL/WARN (here "SKIPPED")
is appended to checks while landing in no bucket, so after that single call
len(checks) = 1 while len(successes)+len(issues)+len(warnings) = 0 and
get_summary reports total_checks = 1 against passed+failed+warnings = 0. -/
theorem c1_arbitrary_status_counterexample :
    ¬ ((buildResult [skippedCheck]).checks.length =
        (buildResult [skippedCheck]).successes.length +
        (buildResult [skippedCheck]).issues.length +
        (buildResult [skippedCheck]).warnings.length) ∧
    (get_summary (buildResult [skippedCheck])).total_checks = 1 ∧
    (get_summary (buildResult [skippedCheck])).passed +
      (get_summary (buildResult [skippedCheck])).failed +
      (get_summary (buildResult [skippedCheck])).warnings = 0 := by
  refine ⟨?_, ?_, ?_⟩ <;> decide

/-- C1 (amended): for every sequence of add_check calls whose statuses all
lie in the closed enumeration PASS/FAIL/WARN, the length of checks equals
the sum of the lengths of successes, issues and warnings, and get_summary
reports total_checks = passed + failed + warnings. -/
theorem c1_checks_partition (calls : List Check)
    (h : ∀ c ∈ calls,
      c.status = "PASS" ∨ c.status = "FAIL" ∨ c.status = "WARN") :
    (buildResult calls).checks.length =
      (buildResult calls).successes.length +
      (buildResult calls).issues.length +
      (buildResult calls).warnings.length ∧
    (get_summary (buildResult calls)).total_checks =
      (get_summary (buildResult calls)).passed +
      (get_summary (buildResult calls)).failed +
      (get_summary (buildResult calls)).warnings := by
  have hp := length_filter_partition calls h
  constructor
  · rw [buildResult_checks, buildResult_successes, buildResult_issues,
      buildResult_warnings]
    omega
  · simp only [get_summary]
    rw [buildResult_checks, buildResult_successes, buildResult_issues,
      buildResult_warnings]
    omega

/-- C1 witness: the amended partition statement instantiated on a concrete
run with one check of each status. -/
theorem c1_checks_partition_witness :
    (buildResult
        [{ category := "A", name := "a", status := "PASS", message := "",
           details := [] },
         { category := "B", name := "b", status := "FAIL", message := "",
           details := [] },
         { category := "C", name := "c", status := "WARN", message := "",
           details := [] }]).checks.length =
      (buildResult
        [{ category := "A", name := "a", status := "PASS", message := "",
           details := [] },
         { category := "B", name := "b", status := "FAIL", message := "",
           details := [] },
         { category := "C", name := "c", status := "WARN", message := "",
           details := [] }]).successes.length +
      (buildResult
        [{ category := "A", name := "a", status := "PASS", message := "",
           details := [] },
         { category := "B", name := "b", status := "FAIL", message := "",
           details := [] },
         { category := "C", name := "c", status := "WARN", message := "",
           details := [] }]).issues.length +
      (buildResult
        [{ category := "A", name := "a", status := "PASS", message := "",
           details := [] },
         { category := "B", name := "b", status := "FAIL", message := "",
           details := [] },
         { category := "C", name := "c", status := "WARN", message := "",
           details := [] }]).warnings.length :=
  (c1_checks_partition _ (by decide)).1

/-- C2: for every sequence of add_check calls, get_summary returns
success_rate = passed / total_checks * 100 when at least one check was
added, and success_rate = 0 when no check was added; the division is
guarded by the emptiness test, so the divisor is nonzero whenever the
division is taken. -/
theorem c2_success_rate (calls : List Check) :
    ((buildResult calls).checks ≠ [] →
      (get_summary (buildResult calls)).success_rate =
        ((get_summary (buildResult calls)).passed : ℚ) /
          ((get_summary (buildResult calls)).total_checks : ℚ) * 100 ∧
      ((get_summary (buildResult calls)).total_checks : ℚ) ≠ 0) ∧
    ((buildResult calls).checks = [] →
      (get_summary (buildResult calls)).success_rate = 0) := by
  constructor
  · intro hne
    constructor
    · simp [get_summary, hne]
    · simp only [get_summary]
      exact_mod_cast Nat.cast_ne_zero.mpr
        (fun h0 => hne (List.length_eq_zero.mp h0))
  · intro he
    simp [get_summary, he]

/-- C2 witness: on a run with one PASS check, the success rate equals
passed/total*100 with a nonzero total; on the empty run it is 0. -/
theorem c2_success_rate_witness :
    (get_summary (buildResult
        [{ category := "A", name := "a", status := "PASS", message := "",
           details := [] }])).success_rate =
      ((get_summary (buildResult
        [{ category := "A", name := "a", status := "PASS", message := "",
           details := [] }])).passed : ℚ) /
        ((get_summary (buildResult
        [{ category := "A", name := "a", status := "PASS", message := "",
           details := [] }])).total_checks : ℚ) * 100 ∧
    (get_summary (buildResult [])).success_rate = 0 :=
  ⟨((c2_success_rate _).1 (by decide)).1, (c2_success_rate []).2 rfl⟩

/-- C3: has_critical_issues on the aggregate built from a sequence of
add_check calls is true exactly when some call used status FAIL; a run
whose statuses are all PASS or WARN yields false, and the exit decision at
the end of the validation command then selects exit code 0. -/
theorem c3_critical_iff_fail (calls : List Check) :
    (has_critical_issues (buildResult calls) = true ↔
      ∃ c ∈ calls, c.status = "FAIL") ∧
    ((∀ c ∈ calls, c.status = "PASS" ∨ c.status = "WARN") →
      has_critical_issues (buildResult calls) = false ∧
      finalExitCode (buildResult calls) = 0) := by
  have hiff : has_critical_issues (buildResult calls) = true ↔
      ∃ c ∈ calls, c.status = "FAIL" := by
    simp [has_critical_issues, buildResult_issues,
      List.length_pos_iff_exists_mem, List.mem_filter]
  refine ⟨hiff, fun hall => ?_⟩
  have hno : ¬ ∃ c ∈ calls, c.status = "FAIL" := by
    rintro ⟨c, hc, hfail⟩
    rcases hall c hc with hp | hw
    · exact absurd hfail (by simp [hp])
    · exact absurd hfail (by simp [hw])
  have hfalse : has_critical_issues (buildResult calls) = false := by
    cases hb : has_critical_issues (buildResult calls)
    · rfl
    · exact absurd (hiff.mp hb) hno
  exact ⟨hfalse, by simp [finalExitCode, hfalse]⟩

/-- C3 witness: a concrete run of one PASS and one WARN check has no
critical issue and exits with code 0. -/
theorem c3_critical_iff_fail_witness :
    has_critical_issues (buildResult
        [{ category := "A", name := "a", status := "PASS", message := "",
           details := [] },
         { category := "B", name := "b", status := "WARN", message := "",
           details := [] }]) = false ∧
    finalExitCode (buildResult
        [{ category := "A", name := "a", status := "PASS", message := "",
           details := [] },
         { category := "B", name := "b", status := "WARN", message := "",
           details := [] }]) = 0 :=
  (c3_critical_iff_fail _).2 (by decide)

/-! Key Vault validator (validate-ai-foundry-deployment.py, lines 324-412).
The management client and the secret client are oracles: vaultOk says
whether vaults.get succeeds, and secretOk names which get_secret calls
succeed (an exception is any false answer). -/

/-- The expected secret names checked by validate_key_vault (line 365). -/
def expected_secrets : List String :=
  ["ai-services-key", "ai-services-endpoint"]

/-- The Secret Access check recorded by validate_key_vault
(lines 364-400): the loop partitions expected_secrets into found and
missing by the outcome of get_secret; a nonempty found list yields PASS
when everything was found and WARN otherwise, with the found/missing lists
in the details payload; an empty found list yields a FAIL check. -/
def secretAccessCheck (secretOk : String → Bool) : Check :=
  let found := expected_secrets.filter secretOk
  let missing := expected_secrets.filter (fun s => ! secretOk s)
  if found ≠ [] then
    { category := "Key Vault", name := "Secret Access",
      status := if found.length = expected_secrets.length
        then "PASS" else "WARN",
      message := "Accessible secrets: " ++ String.intercalate ", " found,
      details := [("found_secrets", found), ("missing_secrets", missing)] }
  else
    { category := "Key Vault", name := "Secret Access",
      status := "FAIL",
      message := "No expected secrets found in Key Vault", details := [] }

/-- validate_key_vault (lines 324-412): returns the sequence of add_check
calls it performs and its boolean return value.  When the vaults.get call
succeeds it records the PASS existence check and the Secret Access check
and returns True; when it raises it records the FAIL existence check and
returns False. -/
def validate_key_vault (kv_name : String) (vaultOk : Bool)
    (secretOk : String → Bool) : List Check × Bool :=
  if vaultOk then
    ([{ category := "Key Vault", name := "Existence", status := "PASS",
        message := "Key Vault '" ++ kv_name ++ "' exists", details := [] },
      secretAccessCheck secretOk], true)
  else
    ([{ category := "Key Vault", name := "Existence", status := "FAIL",
        message := "Key Vault '" ++ kv_name ++ "' validation failed",
        details := [] }], false)

/-- C8: in a validation of an existing vault where exactly one of the two
expected secrets is not retrievable, the recorded Secret Access check has
status WARN (not FAIL) and its details payload lists the one missing
secret name under missing_secrets. -/
theorem c8_one_secret_missing_warn (kv_name : String)
    (secretOk : String → Bool)
    (h : (secretOk "ai-services-key" = true ∧
          secretOk "ai-services-endpoint" = false) ∨
         (secretOk "ai-services-key" = false ∧
          secretOk "ai-services-endpoint" = true)) :
    (validate_key_vault kv_name true secretOk).1.filter
        (fun c => c.name = "Secret Access") =
      [{ category := "Key Vault", name := "Secret Access",
         status := "WARN",
         message := "Accessible secrets: " ++ String.intercalate ", "
           (if secretOk "ai-services-key" then ["ai-services-key"]
            else ["ai-services-endpoint"]),
         details :=
           [("found_secrets",
             if secretOk "ai-services-key" then ["ai-services-key"]
             else ["ai-services-endpoint"]),
            ("missing_secrets",
             if secretOk "ai-services-key" then ["ai-services-endpoint"]
             else ["ai-services-key"])] }] := by
  rcases h with ⟨h1, h2⟩ | ⟨h1, h2⟩ <;>
    simp [validate_key_vault, secretAccessCheck, expected_secrets,
      List.filter_cons, h1, h2]

/-- C8 witness: the WARN shape at the concrete oracle where only
ai-services-key is retrievable. -/
theorem c8_one_secret_missing_warn_witness :
    (validate_key_vault "kv" true
        (fun s => s == "ai-services-key")).1.filter
        (fun c => c.name = "Secret Access") =
      [{ category := "Key Vault", name := "Secret Access",
         status := "WARN",
         message := "Accessible secrets: " ++ String.intercalate ", "
           (if (fun s => s == "ai-services-key") "ai-services-key"
            then ["ai-services-key"] else ["ai-services-endpoint"]),
         details :=
           [("found_secrets",
             if (fun s => s == "ai-services-key") "ai-services-key"
             then ["ai-services-key"] else ["ai-services-endpoint"]),
            ("missing_secrets",
             if (fun s => s == "ai-services-key") "ai-services-key"
             then ["ai-services-endpoint"] else ["ai-services-key"])] }] :=
  c8_one_secret_missing_warn "kv" (fun s => s == "ai-services-key")
    (Or.inl ⟨by decide, by decide⟩)

/-- C10: when the vault exists but no expected secret is retrievable,
validate_key_vault records a Secret Access check with status FAIL (not
WARN) yet still returns True, and in any run whose other checks all
passed, that one FAIL makes has_critical_issues true, so the final exit
decision selects code 1 even though every resource existence check
passed. -/
theorem c10_no_secrets_fail_exit_one (kv_name : String)
    (secretOk : String → Bool) (pre post : List Check)
    (hk : secretOk "ai-services-key" = false)
    (he : secretOk "ai-services-endpoint" = false)
    (hpre : ∀ c ∈ pre, c.status = "PASS")
    (hpost : ∀ c ∈ post, c.status = "PASS") :
    (validate_key_vault kv_name true secretOk).2 = true ∧
    (validate_key_vault kv_name true secretOk).1.filter
        (fun c => c.name = "Secret Access") =
      [{ category := "Key Vault", name := "Secret Access",
         status := "FAIL",
         message := "No expected secrets found in Key Vault",
         details := [] }] ∧
    (buildResult
      (pre ++ (validate_key_vault kv_name true secretOk).1 ++ post)).issues
      = [{ category := "Key Vault", name := "Secret Access",
           status := "FAIL",
           message := "No expected secrets found in Key Vault",
           details := [] }] ∧
    has_critical_issues (buildResult
      (pre ++ (validate_key_vault kv_name true secretOk).1 ++ post))
      = true ∧
    finalExitCode (buildResult
      (pre ++ (validate_key_vault kv_name true secretOk).1 ++ post))
      = 1 := by
  have hcalls : (validate_key_vault kv_name true secretOk).1 =
      [{ category := "Key Vault", name := "Existence", status := "PASS",
         message := "Key Vault '" ++ kv_name ++ "' exists", details := [] },
       { category := "Key Vault", name := "Secret Access",
         status := "FAIL",
         message := "No expected secrets found in Key Vault",
         details := [] }] := by
    simp [validate_key_vault, secretAccessCheck, expected_secrets, hk, he]
  have hprefilter : pre.filter (fun c => c.status = "FAIL") = [] := by
    rw [List.filter_eq_nil_iff]
    intro c hc
    simp [hpre c hc]
  have hpostfilter : post.filter (fun c => c.status = "FAIL") = [] := by
    rw [List.filter_eq_nil_iff]
    intro c hc
    simp [hpost c hc]
  have hissues : (buildResult
      (pre ++ (validate_key_vault kv_name true secretOk).1 ++ post)).issues
      = [{ category := "Key Vault", name := "Secret Access",
           status := "FAIL",
           message := "No expected secrets found in Key Vault",
           details := [] }] := by
    rw [hcalls, buildResult_issues]
    simp [List.filter_append, hprefilter, hpostfilter]
  have hcrit : has_critical_issues (buildResult
      (pre ++ (validate_key_vault kv_name true secretOk).1 ++ post))
      = true := by
    unfold has_critical_issues
    rw [hissues]
    rfl
  refine ⟨by simp [validate_key_vault], ?_, hissues, hcrit, ?_⟩
  · rw [hcalls]; simp
  · unfold finalExitCode
    rw [hcrit]
    simp

/-- C10 witness: the FAIL-yet-return-True behavior and the exit code 1 at
a concrete oracle where no secret is retrievable and a PASS existence
check precedes the vault checks. -/
theorem c10_no_secrets_fail_exit_one_witness :
    (validate_key_vault "kv" true (fun _ => false)).2 = true ∧
    (validate_key_vault "kv" true (fun _ => false)).1.filter
        (fun c => c.name = "Secret Access") =
      [{ category := "Key Vault", name := "Secret Access",
         status := "FAIL",
         message := "No expected secrets found in Key Vault",
         details := [] }] ∧
    (buildResult
      ([{ category := "Resource Group", name := "Existence",
          status := "PASS", message := "rg exists", details := [] }] ++
        (validate_key_vault "kv" true (fun _ => false)).1 ++ [])).issues
      = [{ category := "Key Vault", name := "Secret Access",
           status := "FAIL",
           message := "No expected secrets found in Key Vault",
           details := [] }] ∧
    has_critical_issues (buildResult
      ([{ category := "Resource Group", name := "Existence",
          status := "PASS", message := "rg exists", details := [] }] ++
        (validate_key_vault "kv" true (fun _ => false)).1 ++ []))
      = true ∧
    finalExitCode (buildResult
      ([{ category := "Resource Group", name := "Existence",
          status := "PASS", message := "rg exists", details := [] }] ++
        (validate_key_vault "kv" true (fun _ => false)).1 ++ []))
      = 1 :=
  c10_no_secrets_fail_exit_one "kv" (fun _ => false)
    [{ category := "Resource Group", name := "Existence",
       status := "PASS", message := "rg exists", details := [] }] []
    rfl rfl (by decide) (by decide)

/-! Provisioning model (create-ai-foundry-project.py).  The cloud is an
oracle telling which calls succeed; the deployment is embedded as the
event trace of the calls main makes together with the process exit code. -/

/-- The resource kinds the deployment manages, one per phase. -/
inductive RKind
  | resourceGroup
  | keyVault
  | aiServices
  | containerRegistry
  | storageAccount
  | logWorkspace
  | appInsights
  | search
deriving DecidableEq, Repr

/-- One observable call of the deployment: existence checks and creates
per resource kind (the X_exists helpers, lines 540-605, and the
begin_create/create_or_update calls of phases 1-8), the workspace-id read
(lines 608-621), the two key retrievals (lines 624-693), the key-vault
secret writes (store_secret_in_keyvault, lines 696-743), the role
assignment listing and creation of phase 10, and warning log lines.  Each
fallible call carries the oracle answer it received. -/
inductive Ev
  | existsCheck (k : RKind) (found : Bool)
  | createRes (k : RKind) (ok : Bool)
  | getWorkspaceId (ok : Bool)
  | getAiKeys (ok : Bool)
  | getSearchKeys (ok : Bool)
  | setSecret (name : String) (ok : Bool)
  | roleList (ok : Bool)
  | roleCreate (ok : Bool)
  | warnLog (what : String)
deriving DecidableEq, Repr

/-- The cloud oracle: which resources the get calls find, and which
create/read/write calls succeed. -/
structure Provider where
  found : RKind → Bool
  createOk : RKind → Bool
  wsIdOk : Bool
  aiKeysOk : Bool
  searchKeysOk : Bool
  setOk : String → Bool
  roleListOk : Bool
  roleAssigned : Bool
  roleCreateOk : Bool

/-- The resource-phase pattern shared by phases 1-8 (for example the Key
Vault phase, lines 1002-1058): the X_exists helper answers found (an
exception in the underlying get is answered false, lines 588-592); when
found, the phase makes no create call; when absent, the create call is
made and a failure of the operation raises (wait_for_operation re-raises,
lines 746-759).  The boolean result says whether the phase completed
without an exception. -/
def resource_phase (found createOk : Bool) (k : RKind) :
    List Ev × Bool :=
  if found then ([Ev.existsCheck k true], true)
  else if createOk then
    ([Ev.existsCheck k false, Ev.createRes k true], true)
  else ([Ev.existsCheck k false, Ev.createRes k false], false)

/-- Sequential execution of resource phases with exception propagation:
a raising phase stops the sequence (the exception travels to the
top-level handler of main). -/
def runPhases (p : Provider) : List RKind → List Ev × Bool
  | [] => ([], true)
  | k :: ks =>
      let step := resource_phase (p.found k) (p.createOk k) k
      if step.2 then
        let rest := runPhases p ks
        (step.1 ++ rest.1, rest.2)
      else (step.1, false)

/-- Phase 9, first block (lines 1313-1337): retrieve the AI Services
endpoint and key, then store ai-services-key and ai-services-endpoint;
any exception in the block is caught, logged as a warning, and control
falls through to the next block.  A failed store of ai-services-key
raises inside the block, so the ai-services-endpoint store of the same
block is skipped. -/
def storeAiSecrets (p : Provider) : List Ev :=
  if p.aiKeysOk then
    if p.setOk "ai-services-key" then
      if p.setOk "ai-services-endpoint" then
        [Ev.getAiKeys true, Ev.setSecret "ai-services-key" true,
         Ev.setSecret "ai-services-endpoint" true]
      else
        [Ev.getAiKeys true, Ev.setSecret "ai-services-key" true,
         Ev.setSecret "ai-services-endpoint" false,
         Ev.warnLog "ai-services"]
    else
      [Ev.getAiKeys true, Ev.setSecret "ai-services-key" false,
       Ev.warnLog "ai-services"]
  else [Ev.getAiKeys false, Ev.warnLog "ai-services"]

/-- Phase 9, second block (lines 1339-1367): retrieve the Cognitive
Search endpoint and key, then store cognitive-search-key and
cognitive-search-endpoint, with the same catch-log-continue shape. -/
def storeSearchSecrets (p : Provider) : List Ev :=
  if p.searchKeysOk then
    if p.setOk "cognitive-search-key" then
      if p.setOk "cognitive-search-endpoint" then
        [Ev.getSearchKeys true, Ev.setSecret "cognitive-search-key" true,
         Ev.setSecret "cognitive-search-endpoint" true]
      else
        [Ev.getSearchKeys true, Ev.setSecret "cognitive-search-key" true,
         Ev.setSecret "cognitive-search-endpoint" false,
         Ev.warnLog "cognitive-search"]
    else
      [Ev.getSearchKeys true, Ev.setSecret "cognitive-search-key" false,
       Ev.warnLog "cognitive-search"]
  else [Ev.getSearchKeys false, Ev.warnLog "cognitive-search"]

/-- Phase 9 (lines 1311-1367): the AI Services block, then the Cognitive
Search block; each block catches its own exceptions, so the second block
always runs. -/
def phase9 (p : Provider) : List Ev :=
  storeAiSecrets p ++ storeSearchSecrets p

/-- Phase 10 (lines 1372-1425): list role assignments at the scope; when
no matching assignment is found create one; any exception in the block is
caught and logged as a warning. -/
def phase10 (p : Provider) : List Ev :=
  if p.roleListOk then
    if p.roleAssigned then [Ev.roleList true]
    else if p.roleCreateOk then [Ev.roleList true, Ev.roleCreate true]
    else [Ev.roleList true, Ev.roleCreate false,
      Ev.warnLog "role-assignment"]
  else [Ev.roleList false, Ev.warnLog "role-assignment"]

/-- The tail of main after the resource-group step (lines 997-1562):
phases 1-8 run sequentially; the Log Analytics workspace id is read
between phase 6 and phase 7 and its failure raises (lines 1226-1228);
any exception from phases 1-8 reaches the try/except wrapped around all
of main, which logs the failure and calls exit(1) (lines 1539-1562);
when every resource phase completes, phase 9 and phase 10 run (each
swallowing its own failures) and main finishes normally, exit code 0. -/
def mainAfterRg (p : Provider) (t0 : List Ev) : List Ev × Nat :=
  let front := runPhases p
    [RKind.keyVault, RKind.aiServices, RKind.containerRegistry,
     RKind.storageAccount, RKind.logWorkspace]
  if front.2 then
    if p.wsIdOk then
      let back := runPhases p [RKind.appInsights, RKind.search]
      if back.2 then
        (t0 ++ front.1 ++ [Ev.getWorkspaceId true] ++ back.1 ++
          phase9 p ++ phase10 p, 0)
      else (t0 ++ front.1 ++ [Ev.getWorkspaceId true] ++ back.1, 1)
    else (t0 ++ front.1 ++ [Ev.getWorkspaceId false], 1)
  else (t0 ++ front.1, 1)

/-- The deployment entry once the environment is validated and dry-run is
off (create-ai-foundry-project.py, lines 917-1562).  When the Azure CLI
check fails, main logs an error and returns (lines 917-921) before any
management client is built: no provider call is made and the process
finishes with exit code 0.  Otherwise the resource-group step runs
(lines 975-995; its create failure also plain-returns, exit code 0), and
the remaining phases follow. -/
def create_main (azOk : Bool) (p : Provider) : List Ev × Nat :=
  if azOk then
    if p.found RKind.resourceGroup then
      mainAfterRg p [Ev.existsCheck RKind.resourceGroup true]
    else if p.createOk RKind.resourceGroup then
      mainAfterRg p
        [Ev.existsCheck RKind.resourceGroup false,
         Ev.createRes RKind.resourceGroup true]
    else
      ([Ev.existsCheck RKind.resourceGroup false,
        Ev.createRes RKind.resourceGroup false], 0)
  else ([], 0)

/-- Whether an event is an operation on the given resource kind. -/
def mentionsKind (k : RKind) : Ev → Bool
  | Ev.existsCheck k2 _ => k2 == k
  | Ev.createRes k2 _ => k2 == k
  | _ => false

/-- The secret names a trace successfully writes to the key vault. -/
def storedSecrets (t : List Ev) : List String :=
  t.filterMap (fun e =>
    match e with
    | Ev.setSecret n true => some n
    | _ => none)

/-- The cloud state as later existence checks see it: which resources
exist.  A successful create makes the resource visible to the next
existence check of the same kind. -/
def World : Type := RKind → Bool

/-- One run of the idempotent phase pattern against a world, together
with the world it leaves behind: existence check first; if found, report
already-exists with no create call; otherwise create (which, when it
succeeds, adds the resource to the world). -/
inductive Outcome
  | created
  | alreadyExists
  | failed
deriving DecidableEq, Repr

/-- The provisioner step for one resource kind over the current world. -/
def provision (w : World) (createOk : Bool) (k : RKind) :
    World × List Ev × Outcome :=
  if w k then (w, [Ev.existsCheck k true], Outcome.alreadyExists)
  else if createOk then
    (fun k2 => if k2 = k then true else w k2,
     [Ev.existsCheck k false, Ev.createRes k true], Outcome.created)
  else (w, [Ev.existsCheck k false, Ev.createRes k false], Outcome.failed)

/-- C4: when the existence check reports the resource already exists, the
provisioner makes no create call (the trace holds only the existence
check) and reports already-exists; and provisioning the same spec twice in
a row — the first run creating the resource, the second seeing it exist —
yields created then already-exists, with no second create call and no
possibility of an error on the second run (whatever the create oracle
would answer). -/
theorem c4_idempotent_provision (w : World) (k : RKind) (c c2 : Bool) :
    (w k = true →
      provision w c k =
        (w, [Ev.existsCheck k true], Outcome.alreadyExists)) ∧
    (w k = false →
      (provision w true k).2.2 = Outcome.created ∧
      (provision w true k).1 k = true ∧
      provision ((provision w true k).1) c2 k =
        ((provision w true k).1, [Ev.existsCheck k true],
          Outcome.alreadyExists)) := by
  constructor
  · intro h
    simp [provision, h]
  · intro h
    have h2 : (provision w true k).1 k = true := by
      simp [provision, h]
    refine ⟨by simp [provision, h], h2, ?_⟩
    generalize hgen : (provision w true k).1 = w1 at h2 ⊢
    simp [provision, h2]

/-- C4 witness: a fresh world and the Key Vault kind; the first run
creates, the second reports already-exists with only the existence check
in its trace, even against an oracle that would fail any create. -/
theorem c4_idempotent_provision_witness :
    (provision (fun _ => false) true RKind.keyVault).2.2 =
      Outcome.created ∧
    (provision (fun _ => false) true RKind.keyVault).1 RKind.keyVault =
      true ∧
    provision ((provision (fun _ => false) true RKind.keyVault).1) false
        RKind.keyVault =
      ((provision (fun _ => false) true RKind.keyVault).1,
        [Ev.existsCheck RKind.keyVault true], Outcome.alreadyExists) :=
  (c4_idempotent_provision (fun _ => false) RKind.keyVault true false).2
    rfl

/-- The oracle of the C5 counterexample run: the resource group exists,
nothing else does, and every create succeeds except the AI Services
account create. -/
def pC5 : Provider :=
  { found := fun k => k == RKind.resourceGroup
    createOk := fun k => ! (k == RKind.aiServices)
    wsIdOk := true, aiKeysOk := true, searchKeysOk := true
    setOk := fun _ => true
    roleListOk := true, roleAssigned := true, roleCreateOk := true }

/-- C5 counterexample: with every phase after it able to succeed, a failed
AI Services create makes the deployment exit with code 1 and the trace
stops at that failure — the subsequent independent Container Registry
phase performs no call at all and no secret is propagated, contrary to the
claim that independent phases still execute after a single resource
failure. -/
theorem c5_counterexample :
    (create_main true pC5).2 = 1 ∧
    (create_main true pC5).1 =
      [Ev.existsCheck RKind.resourceGroup true,
       Ev.existsCheck RKind.keyVault false,
       Ev.createRes RKind.keyVault true,
       Ev.existsCheck RKind.aiServices false,
       Ev.createRes RKind.aiServices false] ∧
    (create_main true pC5).1.filter
      (mentionsKind RKind.containerRegistry) = [] ∧
    storedSecrets (create_main true pC5).1 = [] := by
  refine ⟨?_, ?_, ?_, ?_⟩ <;> decide

/-- C5 (amended): a create failure in a resource phase raises out of the
phase, reaches the try/except wrapped around all of main, and aborts the
whole deployment with exit code 1; no subsequent phase executes,
independent or not (here: an AI Services create failure leaves a trace
that ends at the failed create, with no Container Registry, Storage,
workspace, monitoring, search, secret or role operation).  Only the
secret-propagation and role-assignment phases swallow their own
failures. -/
theorem c5_create_failure_aborts (p : Provider)
    (hrg : p.found RKind.resourceGroup = true)
    (hkv : p.found RKind.keyVault = false)
    (hkvc : p.createOk RKind.keyVault = true)
    (hai : p.found RKind.aiServices = false)
    (haic : p.createOk RKind.aiServices = false) :
    create_main true p =
      ([Ev.existsCheck RKind.resourceGroup true,
        Ev.existsCheck RKind.keyVault false,
        Ev.createRes RKind.keyVault true,
        Ev.existsCheck RKind.aiServices false,
        Ev.createRes RKind.aiServices false], 1) := by
  simp [create_main, mainAfterRg, runPhases, resource_phase,
    hrg, hkv, hkvc, hai, haic]

/-- C5 witness: the amended abort behavior at the concrete counterexample
oracle. -/
theorem c5_create_failure_aborts_witness :
    create_main true pC5 =
      ([Ev.existsCheck RKind.resourceGroup true,
        Ev.existsCheck RKind.keyVault false,
        Ev.createRes RKind.keyVault true,
        Ev.existsCheck RKind.aiServices false,
        Ev.createRes RKind.aiServices false], 1) :=
  c5_create_failure_aborts pC5 (by decide) (by decide) (by decide)
    (by decide) (by decide)

/-- C6: when the Azure CLI account check fails, the provisioning command
aborts before any provider call — the trace is empty — but main returns
normally, so the process finishes with exit code 0, not the non-zero code
the claim (and the script's own convention on every other fatal path)
requires.  The validation command's corresponding path does call
sys.exit(1). -/
theorem c6_az_check_failure_exits_zero (p : Provider) :
    create_main false p = ([], 0) := by
  simp [create_main]

/-- The oracle of the C7 counterexample run: everything succeeds except
the key-vault write of ai-services-key. -/
def pC7 : Provider :=
  { found := fun _ => false
    createOk := fun _ => true
    wsIdOk := true, aiKeysOk := true, searchKeysOk := true
    setOk := fun s => ! (s == "ai-services-key")
    roleListOk := true, roleAssigned := true, roleCreateOk := true }

/-- C7 counterexample: the AI Services retrieval succeeded and the
ai-services-endpoint write would have succeeded, yet after the
ai-services-key store fails the exception aborts the whole block, so
propagation does not continue to the next (secret_name, retrieval) pair:
ai-services-endpoint is never written.  Only the pairs of the independent
Cognitive Search block are stored. -/
theorem c7_counterexample :
    pC7.aiKeysOk = true ∧
    pC7.setOk "ai-services-endpoint" = true ∧
    storedSecrets (phase9 pC7) =
      ["cognitive-search-key", "cognitive-search-endpoint"] ∧
    "ai-services-endpoint" ∉ storedSecrets (phase9 pC7) := by
  refine ⟨rfl, by decide, by decide, by decide⟩

/-- C7 (amended): a failure in the AI Services credential block is logged
as a warning and propagation continues with the next credential-source
block, so a failure for one credential source never prevents the secrets
of the independent Cognitive Search source from being written; within a
block, however, a failed store skips the rest of that block. -/
theorem c7_independent_source_preserved (p : Provider)
    (hq : p.searchKeysOk = true)
    (h1 : p.setOk "cognitive-search-key" = true)
    (h2 : p.setOk "cognitive-search-endpoint" = true) :
    "cognitive-search-key" ∈ storedSecrets (phase9 p) ∧
    "cognitive-search-endpoint" ∈ storedSecrets (phase9 p) ∧
    (p.aiKeysOk = false ∨ p.setOk "ai-services-key" = false ∨
        p.setOk "ai-services-endpoint" = false →
      Ev.warnLog "ai-services" ∈ phase9 p) := by
  have hsearch : storeSearchSecrets p =
      [Ev.getSearchKeys true,
       Ev.setSecret "cognitive-search-key" true,
       Ev.setSecret "cognitive-search-endpoint" true] := by
    simp [storeSearchSecrets, hq, h1, h2]
  refine ⟨?_, ?_, ?_⟩
  · simp [phase9, storedSecrets, hsearch, List.filterMap_append,
      List.mem_append]
  · simp [phase9, storedSecrets, hsearch, List.filterMap_append,
      List.mem_append]
  · intro hfail
    rcases hfail with hA | hB | hC
    · simp [phase9, storeAiSecrets, hA, List.mem_append]
    · by_cases hA2 : p.aiKeysOk <;>
        simp [phase9, storeAiSecrets, hA2, hB, List.mem_append]
    · by_cases hA2 : p.aiKeysOk <;>
        by_cases hB2 : p.setOk "ai-services-key" <;>
        simp [phase9, storeAiSecrets, hA2, hB2, hC, List.mem_append]

/-- C7 witness: at the counterexample oracle, both Cognitive Search
secrets are written and the AI Services failure is logged as a warning. -/
theorem c7_independent_source_preserved_witness :
    "cognitive-search-key" ∈ storedSecrets (phase9 pC7) ∧
    "cognitive-search-endpoint" ∈ storedSecrets (phase9 pC7) ∧
    Ev.warnLog "ai-services" ∈ phase9 pC7 := by
  have h := c7_independent_source_preserved pC7 (by decide) (by decide)
    (by decide)
  exact ⟨h.1, h.2.1, h.2.2 (Or.inr (Or.inl (by decide)))⟩

/-! Secret masking.  The two places a secret value reaches a sink are the
masked display of validate_secret (validate-keyvault-access.py,
lines 101-134) and the instrumentation-key entry of the details payload in
validate_application_insights (validate-ai-foundry-deployment.py,
lines 700-704).  Values are modelled as character lists. -/

/-- The occurs-contiguously relation: xs appears (in full) inside ys. -/
def appearsIn (xs ys : List Char) : Prop :=
  ∃ a b, ys = a ++ xs ++ b

lemma appearsIn_length {xs ys : List Char} (h : appearsIn xs ys) :
    xs.length ≤ ys.length := by
  rcases h with ⟨a, b, rfl⟩
  simp [List.length_append]
  omega

/-- The three-dot marker appended after a truncated value. -/
def ellipsisChars : List Char := ['.', '.', '.']

/-- The fixed placeholder the keyvault-access validator shows for short
values. -/
def hiddenMarker : List Char := ['[', 'H', 'I', 'D', 'D', 'E', 'N', ']']

/-- The masked rendering of a secret in validate_secret
(validate-keyvault-access.py, lines 104-110): the first 8 characters plus
the dots when the value is longer than 8 characters, the fixed [HIDDEN]
placeholder otherwise. -/
def masked_value (v : List Char) : List Char :=
  if 8 < v.length then v.take 8 ++ ellipsisChars else hiddenMarker

/-- The instrumentation-key entry of the Application Insights existence
check's details (validate-ai-foundry-deployment.py, lines 700-704):
instrumentation_key[:8] + "..." when the key is truthy (nonempty), None
otherwise — with no length guard. -/
def masked_instrumentation_key (v : List Char) : Option (List Char) :=
  if v = [] then none else some (v.take 8 ++ ellipsisChars)

/-- C9 counterexample: the one-character instrumentation key k is
rendered as k followed by the dots, so the full secret value appears in
the recorded details payload — the Application Insights site has no
length guard, unlike validate_secret. -/
theorem c9_short_secret_counterexample :
    masked_instrumentation_key ['k'] = some (['k'] ++ ellipsisChars) ∧
    appearsIn ['k'] (['k'] ++ ellipsisChars) :=
  ⟨by decide, ⟨[], ellipsisChars, rfl⟩⟩

/-- C9 (amended): every displayed rendering of a secret is built from at
most the first 8 characters of the value plus a fixed marker, and both
rendering sites emit at most 11 characters, so a secret of length 12 or
more never appears in full in either rendering; the keyvault-access site
additionally reveals no character at all of a value of 8 or fewer
characters, while the Application Insights site shows such a short value
in full (the counterexample). -/
theorem c9_masked_renderings (v : List Char) :
    (12 ≤ v.length →
      masked_value v = v.take 8 ++ ellipsisChars ∧
      ¬ appearsIn v (masked_value v) ∧
      masked_instrumentation_key v = some (v.take 8 ++ ellipsisChars) ∧
      ¬ appearsIn v (v.take 8 ++ ellipsisChars)) ∧
    (v.length ≤ 8 → masked_value v = hiddenMarker) := by
  constructor
  · intro h
    have hlen : (v.take 8 ++ ellipsisChars).length = 11 := by
      simp [ellipsisChars, List.length_take]
      omega
    have hgt : 8 < v.length := by omega
    have hmv : masked_value v = v.take 8 ++ ellipsisChars := by
      simp [masked_value, hgt]
    have hne : v ≠ [] := by
      intro h0
      rw [h0] at h
      simp at h
    have hnotapp : ¬ appearsIn v (v.take 8 ++ ellipsisChars) := by
      intro happ
      have hle := appearsIn_length happ
      rw [hlen] at hle
      omega
    exact ⟨hmv, by rw [hmv]; exact hnotapp,
      by simp [masked_instrumentation_key, hne], hnotapp⟩
  · intro h
    have h8 : ¬ 8 < v.length := by omega
    simp [masked_value, h8]

/-- C9 witness: the amended masking statement at a concrete 12-character
secret. -/
theorem c9_masked_renderings_witness :
    masked_value
        ['a', 'b', 'c', 'd', 'e', 'f', 'g', 'h', 'i', 'j', 'k', 'l'] =
      (['a', 'b', 'c', 'd', 'e', 'f', 'g', 'h', 'i', 'j', 'k',
        'l'] : List Char).take 8 ++ ellipsisChars ∧
    ¬ appearsIn
        ['a', 'b', 'c', 'd', 'e', 'f', 'g', 'h', 'i', 'j', 'k', 'l']
        (masked_value
          ['a', 'b', 'c', 'd', 'e', 'f', 'g', 'h', 'i', 'j', 'k', 'l']) ∧
    masked_instrumentation_key
        ['a', 'b', 'c', 'd', 'e', 'f', 'g', 'h', 'i', 'j', 'k', 'l'] =
      some ((['a', 'b', 'c', 'd', 'e', 'f', 'g', 'h', 'i', 'j', 'k',
        'l'] : List Char).take 8 ++ ellipsisChars) ∧
    ¬ appearsIn
        ['a', 'b', 'c', 'd', 'e', 'f', 'g', 'h', 'i', 'j', 'k', 'l']
        ((['a', 'b', 'c', 'd', 'e', 'f', 'g', 'h', 'i', 'j', 'k',
          'l'] : List Char).take 8 ++ ellipsisChars) :=
  (c9_masked_renderings
    ['a', 'b', 'c', 'd', 'e', 'f', 'g', 'h', 'i', 'j', 'k', 'l']).1
    (by decide)

end AiFoundry
